import Mathlib

/-!
Verification development for the per-path packet worker of the relayer
(`relayer/src/worker/packet.rs`), together with the packet-clearing
integration test (`tools/integration-test/src/tests/clear_packet.rs`).

The control flow of the worker is embedded shallowly.  The link operations
(`update_schedule`, `schedule_packet_clearing`, `refresh_schedule`,
`execute_schedule`, `process_pending_txs`) live outside the excerpt, so a
`LinkModel` records, as a behaviour oracle, the result each operation
returns; the handlers are translated from the Rust source and additionally
emit a trace of the operations they invoke (with the error, if any, that
the operation returned) and of the telemetry counters they emit.
-/

namespace PacketWorker

/-- Heights are `(revision_number, revision_height)` pairs (`ibc::Height`). -/
structure Height where
  revision_number : Nat
  revision_height : Nat
deriving DecidableEq, Repr

/-- The event variants the telemetry code of `packet.rs` discriminates on;
all other `IbcEvent` variants are collapsed into `other`. -/
inductive IbcEvent
  | WriteAcknowledgement
  | AcknowledgePacket
  | TimeoutPacket
  | other (tag : Nat)
deriving DecidableEq, Repr

def IbcEvent.isWriteAcknowledgement : IbcEvent → Bool
  | .WriteAcknowledgement => true
  | _ => false

def IbcEvent.isAcknowledgePacket : IbcEvent → Bool
  | .AcknowledgePacket => true
  | _ => false

def IbcEvent.isTimeoutPacket : IbcEvent → Bool
  | .TimeoutPacket => true
  | _ => false

/-- `RelaySummary`: the events produced by `process_pending_txs`. -/
structure RelaySummary where
  events : List IbcEvent
deriving DecidableEq, Repr

/-- `EventBatch` (from the event monitor): a batch of source-chain events. -/
structure EventBatch where
  chain_id : String
  height : Height
  events : List IbcEvent
deriving DecidableEq, Repr

/-- The payload of a `NewBlock` event; the packet worker ignores it. -/
inductive NewBlockEvent
  | mk
deriving DecidableEq, Repr

/-- `WorkerCmd`: the commands a packet command worker receives. -/
inductive WorkerCmd
  | IbcEvents (batch : EventBatch)
  | NewBlock (height : Height) (new_block : NewBlockEvent)
  | ClearPendingPackets
deriving DecidableEq, Repr

/-- A `LinkError`, abstracted to the one observation `packet.rs` makes of
it: whether `is_expired_or_frozen_error()` holds; `tag` keeps distinct
errors distinguishable. -/
structure LinkError where
  expired_or_frozen : Bool
  tag : Nat
deriving DecidableEq, Repr

def LinkError.is_expired_or_frozen_error (e : LinkError) : Bool :=
  e.expired_or_frozen

/-- `RunError`: worker run errors; `packet.rs` only builds `RunError::link`. -/
inductive RunError
  | link (e : LinkError)
deriving DecidableEq, Repr

/-- `TaskError`: disposition of an error inside a background task. -/
inductive TaskError
  | Fatal (e : RunError)
  | Ignore (e : RunError)
deriving DecidableEq, Repr

/-- `handle_link_error_in_task` (packet.rs lines 21-29). -/
def handle_link_error_in_task (e : LinkError) : TaskError :=
  if e.is_expired_or_frozen_error then
    TaskError.Fatal (RunError.link e)
  else
    TaskError.Ignore (RunError.link e)

/-- Modelled from the spec: the `Resubmit` policy (`link::Resubmit`), not in
the excerpt.  `Never` when the interval is 0, otherwise derived from the
interval. -/
inductive Resubmit
  | never
  | fromInterval (k : Nat)
deriving DecidableEq, Repr

/-- Modelled from the spec: `Resubmit::from_clear_interval`, not in the
excerpt; the spec makes `Resubmit::Never` correspond to interval 0. -/
def Resubmit.from_clear_interval (clear_interval : Nat) : Resubmit :=
  if clear_interval = 0 then Resubmit.never else Resubmit.fromInterval clear_interval

/-- The `Packet` path object: the identifiers `packet_metrics` reads. -/
structure Packet where
  src_chain_id : String
  src_channel_id : String
  src_port_id : String
  dst_chain_id : String
deriving DecidableEq, Repr

/-- A telemetry counter emission, keyed the way `packet.rs` keys it:
`(src_chain_id, src_channel_id, src_port_id)` plus the count. -/
inductive TelemetryCounter
  | ibc_receive_packets (chain channel port : String) (count : Nat)
  | ibc_acknowledgment_packets (chain channel port : String) (count : Nat)
  | ibc_timeout_packets (chain channel port : String) (count : Nat)
deriving DecidableEq, Repr

/-- The link operations the worker can invoke. -/
inductive LinkOp
  | update_schedule (batch : EventBatch)
  | schedule_packet_clearing (height : Option Height)
  | refresh_schedule
  | execute_schedule
  | process_pending_txs (resubmit : Resubmit)
deriving DecidableEq, Repr

/-- One observable step of the worker: a link operation together with the
error it returned (`none` on success), or a telemetry emission. -/
inductive WorkerEvent
  | op (o : LinkOp) (err : Option LinkError)
  | telemetry (c : TelemetryCounter)
deriving DecidableEq, Repr

/-- Behaviour oracle for the link: the result each operation returns when
invoked during one worker step.  Within a single command dispatch each
operation is invoked at most once, so this is fully general. -/
structure LinkModel where
  update_schedule_result : EventBatch → Except LinkError Unit
  schedule_packet_clearing_result : Option Height → Except LinkError Unit
  refresh_schedule_result : Except LinkError Unit
  execute_schedule_result : Except LinkError Unit
  process_pending_txs_result : Resubmit → RelaySummary

/-- `receive_packet_metrics` (packet.rs lines 215-231): counts
`WriteAcknowledgement` events in the summary. -/
def receive_packet_metrics (path : Packet) (summary : RelaySummary) : TelemetryCounter :=
  TelemetryCounter.ibc_receive_packets path.src_chain_id path.src_channel_id path.src_port_id
    (summary.events.countP (fun e => e.isWriteAcknowledgement))

/-- `acknowledgment_metrics` (packet.rs lines 234-250): counts
`AcknowledgePacket` events in the summary. -/
def acknowledgment_metrics (path : Packet) (summary : RelaySummary) : TelemetryCounter :=
  TelemetryCounter.ibc_acknowledgment_packets path.src_chain_id path.src_channel_id path.src_port_id
    (summary.events.countP (fun e => e.isAcknowledgePacket))

/-- `timeout_metrics` (packet.rs lines 253-268): counts `TimeoutPacket`
events in the summary. -/
def timeout_metrics (path : Packet) (summary : RelaySummary) : TelemetryCounter :=
  TelemetryCounter.ibc_timeout_packets path.src_chain_id path.src_channel_id path.src_port_id
    (summary.events.countP (fun e => e.isTimeoutPacket))

/-- `packet_metrics` (packet.rs lines 208-212): the three counters emitted
after an executor pass, in source order. -/
def packet_metrics (path : Packet) (summary : RelaySummary) : List TelemetryCounter :=
  [receive_packet_metrics path summary,
   acknowledgment_metrics path summary,
   timeout_metrics path summary]

/-- `handle_execute_schedule` (packet.rs lines 175-202): refresh the
schedule, execute it, process pending txs, then emit packet metrics; the
`?` operator aborts the pass at the first failing call. -/
def handle_execute_schedule (link : LinkModel) (path : Packet) (resubmit : Resubmit) :
    Except TaskError Unit × List WorkerEvent :=
  match link.refresh_schedule_result with
  | Except.error e =>
      (Except.error (handle_link_error_in_task e),
       [WorkerEvent.op LinkOp.refresh_schedule (some e)])
  | Except.ok _ =>
      match link.execute_schedule_result with
      | Except.error e =>
          (Except.error
            (if e.is_expired_or_frozen_error then
              TaskError.Fatal (RunError.link e)
            else
              TaskError.Ignore (RunError.link e)),
           [WorkerEvent.op LinkOp.refresh_schedule none,
            WorkerEvent.op LinkOp.execute_schedule (some e)])
      | Except.ok _ =>
          let summary := link.process_pending_txs_result resubmit
          (Except.ok (),
           [WorkerEvent.op LinkOp.refresh_schedule none,
            WorkerEvent.op LinkOp.execute_schedule none,
            WorkerEvent.op (LinkOp.process_pending_txs resubmit) none]
             ++ (packet_metrics path summary).map WorkerEvent.telemetry)

/-- `handle_update_schedule` (packet.rs lines 149-160): `update_schedule`
on the batch, then (on success) one executor pass. -/
def handle_update_schedule (link : LinkModel) (clear_interval : Nat) (path : Packet)
    (batch : EventBatch) : Except TaskError Unit × List WorkerEvent :=
  match link.update_schedule_result batch with
  | Except.error e =>
      (Except.error (handle_link_error_in_task e),
       [WorkerEvent.op (LinkOp.update_schedule batch) (some e)])
  | Except.ok _ =>
      let rest := handle_execute_schedule link path (Resubmit.from_clear_interval clear_interval)
      (rest.1, WorkerEvent.op (LinkOp.update_schedule batch) none :: rest.2)

/-- `handle_clear_packet` (packet.rs lines 162-173): `schedule_packet_clearing`
at the given height hint, then (on success) one executor pass. -/
def handle_clear_packet (link : LinkModel) (clear_interval : Nat) (path : Packet)
    (height : Option Height) : Except TaskError Unit × List WorkerEvent :=
  match link.schedule_packet_clearing_result height with
  | Except.error e =>
      (Except.error (handle_link_error_in_task e),
       [WorkerEvent.op (LinkOp.schedule_packet_clearing height) (some e)])
  | Except.ok _ =>
      let rest := handle_execute_schedule link path (Resubmit.from_clear_interval clear_interval)
      (rest.1, WorkerEvent.op (LinkOp.schedule_packet_clearing height) none :: rest.2)

/-- `should_clear_packets` (packet.rs lines 145-147). -/
def should_clear_packets (clear_interval : Nat) (height : Height) : Bool :=
  clear_interval != 0 && height.revision_height % clear_interval == 0

/-- Remainder as the Rust `%` on `u64` behaves: panics (`none`) on a zero
divisor. -/
def checked_rem (a b : Nat) : Option Nat :=
  if b = 0 then none else some (a % b)

/-- Panic-aware embedding of `should_clear_packets`: the `&&` in the source
short-circuits, so the remainder is evaluated only under `clear_interval != 0`. -/
def should_clear_packets_checked (clear_interval : Nat) (height : Height) : Option Bool :=
  if clear_interval != 0 then
    (checked_rem height.revision_height clear_interval).map (fun r => r == 0)
  else
    some false

/-- `handle_packet_cmd` (packet.rs lines 110-141).  Returns the result, the
updated `should_clear_on_start` latch, and the trace of the dispatch. -/
def handle_packet_cmd (link : LinkModel) (should_clear_on_start : Bool)
    (clear_interval : Nat) (path : Packet) (cmd : WorkerCmd) :
    Except TaskError Unit × Bool × List WorkerEvent :=
  match cmd with
  | WorkerCmd.IbcEvents batch =>
      let out := handle_update_schedule link clear_interval path batch
      (out.1, should_clear_on_start, out.2)
  | WorkerCmd.NewBlock height _ =>
      if should_clear_on_start then
        let out := handle_clear_packet link clear_interval path (some height)
        match out.1 with
        | Except.error e => (Except.error e, should_clear_on_start, out.2)
        | Except.ok _ => (Except.ok (), false, out.2)
      else if should_clear_packets clear_interval height then
        let out := handle_clear_packet link clear_interval path (some height)
        (out.1, should_clear_on_start, out.2)
      else
        (Except.ok (), should_clear_on_start, [])
  | WorkerCmd.ClearPendingPackets =>
      let out := handle_clear_packet link clear_interval path none
      (out.1, should_clear_on_start, out.2)

def exceptIsOk : Except TaskError Unit → Bool
  | Except.ok _ => true
  | Except.error _ => false

/-- The tick period (milliseconds) `spawn_packet_worker` passes to
`spawn_background_task` (packet.rs line 50). -/
def packet_worker_tick_period_ms : Nat := 1000

/-- The step period (milliseconds) `spawn_packet_cmd_worker` passes to
`spawn_background_task` (packet.rs line 77). -/
def packet_cmd_worker_step_period_ms : Nat := 200

/-- The body of the tick task spawned by `spawn_packet_worker`
(packet.rs lines 50-53): one executor pass on the exclusively held link. -/
def spawn_packet_worker_step (link : LinkModel) (path : Packet) (resubmit : Resubmit) :
    Except TaskError Unit × List WorkerEvent :=
  handle_execute_schedule link path resubmit

/-- State of the command worker loop of `spawn_packet_cmd_worker`: the
inbox (the `crossbeam` receiver, drained front-first by `try_recv`), the
retained `current_command`, and the `should_clear_on_start` latch. -/
structure CmdWorkerState where
  inbox : List WorkerCmd
  current_command : Option WorkerCmd
  should_clear_on_start : Bool
deriving DecidableEq, Repr

/-- One step of the closure spawned by `spawn_packet_cmd_worker`
(packet.rs lines 75-99): receive a command only when `current_command` is
empty, dispatch the pending command if any, and reset `current_command`
only when `handle_packet_cmd` succeeds. -/
def cmd_worker_step (link : LinkModel) (clear_interval : Nat) (path : Packet)
    (s : CmdWorkerState) : CmdWorkerState × Except TaskError Unit × List WorkerEvent :=
  let received :=
    match s.current_command with
    | some c => (some c, s.inbox)
    | none =>
        match s.inbox with
        | [] => (none, [])
        | c :: rest => (some c, rest)
  match received.1 with
  | none =>
      ({ inbox := received.2, current_command := none,
         should_clear_on_start := s.should_clear_on_start },
       Except.ok (), [])
  | some cmd =>
      let out := handle_packet_cmd link s.should_clear_on_start clear_interval path cmd
      match out.1 with
      | Except.ok _ =>
          ({ inbox := received.2, current_command := none,
             should_clear_on_start := out.2.1 },
           Except.ok (), out.2.2)
      | Except.error e =>
          ({ inbox := received.2, current_command := some cmd,
             should_clear_on_start := out.2.1 },
           Except.error e, out.2.2)

/-- A run of command dispatches: fold `handle_packet_cmd` over a list of
(link behaviour, command) pairs, threading the latch and concatenating the
traces. -/
def run_packet_cmds (clear_interval : Nat) (path : Packet) :
    List (LinkModel × WorkerCmd) → Bool → Bool × List WorkerEvent
  | [], latch => (latch, [])
  | (link, cmd) :: rest, latch =>
      let out := handle_packet_cmd link latch clear_interval path cmd
      let after := run_packet_cmds clear_interval path rest out.2.1
      (after.1, out.2.2 ++ after.2)

def WorkerCmd.isNewBlock : WorkerCmd → Bool
  | WorkerCmd.NewBlock _ _ => true
  | _ => false

/-- Whether some step of the run dispatched a `NewBlock` command while the
latch was still set and its handler returned `Ok` — i.e. whether an
on-start clearing completed successfully. -/
def on_start_clear_succeeded (clear_interval : Nat) (path : Packet) :
    List (LinkModel × WorkerCmd) → Bool → Bool
  | [], _ => false
  | (link, cmd) :: rest, latch =>
      let out := handle_packet_cmd link latch clear_interval path cmd
      (latch && cmd.isNewBlock && exceptIsOk out.1)
        || on_start_clear_succeeded clear_interval path rest out.2.1

/-- Whether a trace entry is a successfully returning
`schedule_packet_clearing` invocation. -/
def WorkerEvent.isSuccessfulClearing : WorkerEvent → Bool
  | WorkerEvent.op (LinkOp.schedule_packet_clearing _) none => true
  | _ => false

def successfulClearingOccurred (tr : List WorkerEvent) : Bool :=
  tr.any WorkerEvent.isSuccessfulClearing

/-- Whether a trace entry is a `schedule_packet_clearing` invocation
(successful or not). -/
def WorkerEvent.isClearingOp : WorkerEvent → Bool
  | WorkerEvent.op (LinkOp.schedule_packet_clearing _) _ => true
  | _ => false

def clearingRequested (tr : List WorkerEvent) : Bool :=
  tr.any WorkerEvent.isClearingOp

/-- The link operations of a trace, telemetry entries dropped. -/
def opsOf (tr : List WorkerEvent) : List LinkOp :=
  tr.filterMap (fun ev =>
    match ev with
    | WorkerEvent.op o _ => some o
    | WorkerEvent.telemetry _ => none)

/-- The telemetry counters of a trace, link operations dropped. -/
def telemetryOf (tr : List WorkerEvent) : List TelemetryCounter :=
  tr.filterMap (fun ev =>
    match ev with
    | WorkerEvent.op _ _ => none
    | WorkerEvent.telemetry c => some c)

/-- The `mode.packets` section of the relayer configuration, as the
integration test manipulates it. -/
structure PacketsModeConfig where
  enabled : Bool
  clear_on_start : Bool
  clear_interval : Nat
deriving DecidableEq, Repr

/-- `modify_relayer_config` of `TestOverrides for ClearPacketTest`
(clear_packet.rs lines 24-40): disable `clear_on_start` and set
`clear_interval` to 0. -/
def clearPacketTestOverrides (c : PacketsModeConfig) : PacketsModeConfig :=
  { c with clear_on_start := false, clear_interval := 0 }

/-- Modelled from the spec: the end-to-end outcome of the baseline-delivery
scenario (the relayer binary, chain drivers and supervisor are not in the
excerpt).  A transfer debits the sender immediately; a transfer made before
the supervisor starts is delivered to the destination only if pending
packets are cleared (`clear_on_start` or a non-zero `clear_interval`),
while a transfer made after the supervisor starts is relayed.  Returns the
final chain-A wallet balance and the chain-B wallet balance in the
IBC-derived denom. -/
def baseline_delivery (cfg : PacketsModeConfig) (balance_a amount1 amount2 : Nat) :
    Nat × Nat :=
  let pre_start_delivered :=
    if cfg.clear_on_start || cfg.clear_interval != 0 then amount1 else 0
  (balance_a - amount1 - amount2, pre_start_delivered + amount2)

/-- A sample path used by concrete witnesses. -/
def samplePath : Packet :=
  { src_chain_id := "chain-a", src_channel_id := "channel-0",
    src_port_id := "transfer", dst_chain_id := "chain-b" }

/-- A link behaviour on which every operation succeeds and the relay
summary is empty. -/
def lmAllOk : LinkModel :=
  { update_schedule_result := fun _ => Except.ok ()
    schedule_packet_clearing_result := fun _ => Except.ok ()
    refresh_schedule_result := Except.ok ()
    execute_schedule_result := Except.ok ()
    process_pending_txs_result := fun _ => { events := [] } }

/-- A non-fatal link error and a fatal (expired/frozen) link error. -/
def transientError : LinkError := { expired_or_frozen := false, tag := 7 }

def frozenError : LinkError := { expired_or_frozen := true, tag := 3 }

/-- A link behaviour whose `refresh_schedule` fails with a transient error. -/
def lmRefreshFails : LinkModel :=
  { lmAllOk with refresh_schedule_result := Except.error transientError }

/-! ## Helper lemmas -/

theorem shouldClear_iff (clear_interval : Nat) (h : Height) :
    should_clear_packets clear_interval h = true
      ↔ (clear_interval ≠ 0 ∧ h.revision_height % clear_interval = 0) := by
  simp [should_clear_packets]

theorem exceptIsOk_iff (r : Except TaskError Unit) :
    exceptIsOk r = true ↔ r = Except.ok () := by
  cases r with
  | ok u => cases u; simp [exceptIsOk]
  | error e => simp [exceptIsOk]

theorem clearingRequested_handle_clear_packet (link : LinkModel) (clear_interval : Nat)
    (path : Packet) (height : Option Height) :
    clearingRequested (handle_clear_packet link clear_interval path height).2 = true := by
  unfold handle_clear_packet
  cases link.schedule_packet_clearing_result height with
  | error e => simp [clearingRequested, List.any, WorkerEvent.isClearingOp]
  | ok u => simp [clearingRequested, List.any, WorkerEvent.isClearingOp]

theorem countClearing_handle_execute_schedule (link : LinkModel) (path : Packet)
    (r : Resubmit) :
    ((handle_execute_schedule link path r).2.countP WorkerEvent.isClearingOp) = 0 := by
  unfold handle_execute_schedule
  cases link.refresh_schedule_result with
  | error e => simp [WorkerEvent.isClearingOp]
  | ok u =>
      cases link.execute_schedule_result with
      | error e => simp [WorkerEvent.isClearingOp]
      | ok v =>
          simp [WorkerEvent.isClearingOp, packet_metrics, List.countP_append,
            receive_packet_metrics, acknowledgment_metrics, timeout_metrics, List.countP_cons]

theorem countClearing_handle_clear_packet (link : LinkModel) (clear_interval : Nat)
    (path : Packet) (height : Option Height) :
    ((handle_clear_packet link clear_interval path height).2.countP WorkerEvent.isClearingOp)
      = 1 := by
  unfold handle_clear_packet
  cases link.schedule_packet_clearing_result height with
  | error e => simp [WorkerEvent.isClearingOp]
  | ok u =>
      simp only [List.countP_cons]
      rw [countClearing_handle_execute_schedule]
      simp [WorkerEvent.isClearingOp]

/-! ## Claim C9 -/

/-- C9: `should_clear_packets` is total: for every `(clear_interval, height)`
pair, including `clear_interval = 0`, the panic-aware embedding returns a
boolean (never the panic value `none`), and agrees with the pure function,
because the remainder is evaluated only after the short-circuit check that
`clear_interval` is non-zero; `checked_rem _ 0 = none` shows the remainder
alone would panic on a zero divisor. -/
theorem should_clear_packets_total (clear_interval : Nat) (height : Height) :
    should_clear_packets_checked clear_interval height
        = some (should_clear_packets clear_interval height)
      ∧ checked_rem height.revision_height 0 = none := by
  constructor
  · unfold should_clear_packets_checked should_clear_packets checked_rem
    by_cases hc : clear_interval = 0
    · subst hc; simp
    · simp [hc]
  · simp [checked_rem]

/-! ## Claim C4 -/

/-- C4: the error classification yields a `Fatal` task error exactly when the
`LinkError` is an expired-or-frozen light-client error, and an `Ignore`
(non-fatal, worker continues) disposition for every other error; the inline
classification of `execute_schedule` errors in `handle_execute_schedule`
agrees with `handle_link_error_in_task`. -/
theorem link_error_classification (e : LinkError) :
    ((handle_link_error_in_task e = TaskError.Fatal (RunError.link e))
        ↔ e.is_expired_or_frozen_error = true)
      ∧ ((handle_link_error_in_task e = TaskError.Ignore (RunError.link e))
        ↔ e.is_expired_or_frozen_error = false)
      ∧ ∀ (usr : EventBatch → Except LinkError Unit)
          (spcr : Option Height → Except LinkError Unit)
          (pptr : Resubmit → RelaySummary) (path : Packet) (r : Resubmit),
          (handle_execute_schedule
              { update_schedule_result := usr, schedule_packet_clearing_result := spcr,
                refresh_schedule_result := Except.ok (),
                execute_schedule_result := Except.error e,
                process_pending_txs_result := pptr } path r).1
            = Except.error (handle_link_error_in_task e) := by
  refine ⟨?_, ?_, ?_⟩
  · unfold handle_link_error_in_task
    by_cases hf : e.is_expired_or_frozen_error <;> simp [hf]
  · unfold handle_link_error_in_task
    by_cases hf : e.is_expired_or_frozen_error <;> simp [hf]
  · intro usr spcr pptr path r
    unfold handle_execute_schedule handle_link_error_in_task
    by_cases hf : e.is_expired_or_frozen_error <;> simp [hf]

/-! ## Claim C2 -/

/-- C2: on a `NewBlock` command with the on-start latch already false, the
periodic clearing path (a `schedule_packet_clearing` invocation) is taken
exactly when `clear_interval` is non-zero and the `revision_height`
component of the height is divisible by `clear_interval`; in particular it
is never taken when `clear_interval = 0`, and `should_clear_packets`
decides exactly this condition. -/
theorem newblock_periodic_clearing_iff (link : LinkModel) (clear_interval : Nat)
    (path : Packet) (h : Height) (nb : NewBlockEvent) :
    (clearingRequested
          (handle_packet_cmd link false clear_interval path (WorkerCmd.NewBlock h nb)).2.2 = true
        ↔ (clear_interval ≠ 0 ∧ h.revision_height % clear_interval = 0))
      ∧ (clear_interval = 0 →
          clearingRequested
            (handle_packet_cmd link false clear_interval path
              (WorkerCmd.NewBlock h nb)).2.2 = false)
      ∧ (should_clear_packets clear_interval h = true
          ↔ (clear_interval ≠ 0 ∧ h.revision_height % clear_interval = 0)) := by
  have main : clearingRequested
        (handle_packet_cmd link false clear_interval path (WorkerCmd.NewBlock h nb)).2.2
      = should_clear_packets clear_interval h := by
    unfold handle_packet_cmd
    by_cases hs : should_clear_packets clear_interval h
    · simp only [hs, if_true, Bool.false_eq_true, if_false]
      simp [clearingRequested_handle_clear_packet]
    · simp only [Bool.false_eq_true, if_false, hs]
      simp [clearingRequested]
  refine ⟨?_, ?_, shouldClear_iff clear_interval h⟩
  · rw [main]; exact shouldClear_iff clear_interval h
  · intro hc
    rw [main]
    subst hc
    simp [should_clear_packets]

/-- Witness for C2 at `clear_interval = 0`: no clearing is requested. -/
theorem newblock_periodic_clearing_iff_witness :
    clearingRequested
      (handle_packet_cmd lmAllOk false 0 samplePath
        (WorkerCmd.NewBlock { revision_number := 0, revision_height := 5 }
          NewBlockEvent.mk)).2.2 = false :=
  (newblock_periodic_clearing_iff lmAllOk 0 samplePath
    { revision_number := 0, revision_height := 5 } NewBlockEvent.mk).2.1 rfl

/-! ## Claim C10 -/

/-- C10: a `NewBlock` command with the latch false and
`should_clear_packets` false is a no-op: `handle_packet_cmd` returns `Ok`,
invokes no link operation (empty trace), and leaves the latch unchanged;
moreover the on-start branch and the interval branch are mutually
exclusive, so any single `NewBlock` dispatch performs at most one
`schedule_packet_clearing` call. -/
theorem newblock_noop_frame (link : LinkModel) (clear_interval : Nat) (path : Packet)
    (h : Height) (nb : NewBlockEvent) :
    (should_clear_packets clear_interval h = false →
        handle_packet_cmd link false clear_interval path (WorkerCmd.NewBlock h nb)
          = (Except.ok (), false, []))
      ∧ ∀ latch : Bool,
          ((handle_packet_cmd link latch clear_interval path
              (WorkerCmd.NewBlock h nb)).2.2.countP WorkerEvent.isClearingOp) ≤ 1 := by
  constructor
  · intro hs
    unfold handle_packet_cmd
    simp [hs]
  · intro latch
    unfold handle_packet_cmd
    cases latch with
    | true =>
        simp only [if_true]
        cases (handle_clear_packet link clear_interval path (some h)).1 with
        | error e =>
            simpa using Nat.le_of_eq
              (countClearing_handle_clear_packet link clear_interval path (some h))
        | ok u =>
            simpa using Nat.le_of_eq
              (countClearing_handle_clear_packet link clear_interval path (some h))
    | false =>
        by_cases hs : should_clear_packets clear_interval h
        · simp only [hs, Bool.false_eq_true, if_false, if_true]
          simpa using Nat.le_of_eq
            (countClearing_handle_clear_packet link clear_interval path (some h))
        · simp [hs]

/-- Witness for C10: with `clear_interval = 5` and revision height 3 the
`NewBlock` dispatch is a no-op. -/
theorem newblock_noop_frame_witness :
    handle_packet_cmd lmAllOk false 5 samplePath
        (WorkerCmd.NewBlock { revision_number := 0, revision_height := 3 }
          NewBlockEvent.mk)
      = (Except.ok (), false, []) :=
  (newblock_noop_frame lmAllOk 5 samplePath
    { revision_number := 0, revision_height := 3 } NewBlockEvent.mk).1 (by decide)

/-! ## Claim C8 -/

/-- C8: on a completed executor pass the worker emits exactly three
telemetry counters, keyed by `(src_chain_id, src_channel_id, src_port_id)`,
whose values are the number of `WriteAcknowledgement`, `AcknowledgePacket`
and `TimeoutPacket` events, respectively, in the relay summary produced by
the `process_pending_txs` of that pass. -/
theorem telemetry_counters_of_pass
    (usr : EventBatch → Except LinkError Unit)
    (spcr : Option Height → Except LinkError Unit)
    (pptr : Resubmit → RelaySummary) (path : Packet) (r : Resubmit) :
    telemetryOf
        (handle_execute_schedule
          { update_schedule_result := usr, schedule_packet_clearing_result := spcr,
            refresh_schedule_result := Except.ok (),
            execute_schedule_result := Except.ok (),
            process_pending_txs_result := pptr } path r).2
      = [TelemetryCounter.ibc_receive_packets
           path.src_chain_id path.src_channel_id path.src_port_id
           ((pptr r).events.countP (fun e => e.isWriteAcknowledgement)),
         TelemetryCounter.ibc_acknowledgment_packets
           path.src_chain_id path.src_channel_id path.src_port_id
           ((pptr r).events.countP (fun e => e.isAcknowledgePacket)),
         TelemetryCounter.ibc_timeout_packets
           path.src_chain_id path.src_channel_id path.src_port_id
           ((pptr r).events.countP (fun e => e.isTimeoutPacket))] := by
  simp [handle_execute_schedule, telemetryOf, packet_metrics,
    receive_packet_metrics, acknowledgment_metrics, timeout_metrics]

/-! ## Claim C5 -/

/-- C5: on an `IbcEvents{batch}` command, `handle_packet_cmd` calls
`update_schedule(batch)`; if that fails the handler returns the classified
error with no executor pass, and if it succeeds the handler performs
exactly one executor pass — `refresh_schedule`, then `execute_schedule`,
then `process_pending_txs`, in that order when they succeed — leaving the
latch unchanged. -/
theorem ibc_events_dispatch (link : LinkModel) (latch : Bool) (clear_interval : Nat)
    (path : Packet) (batch : EventBatch) :
    (∀ e, link.update_schedule_result batch = Except.error e →
        handle_packet_cmd link latch clear_interval path (WorkerCmd.IbcEvents batch)
          = (Except.error (handle_link_error_in_task e), latch,
             [WorkerEvent.op (LinkOp.update_schedule batch) (some e)]))
      ∧ (link.update_schedule_result batch = Except.ok () →
          handle_packet_cmd link latch clear_interval path (WorkerCmd.IbcEvents batch)
            = ((handle_execute_schedule link path
                  (Resubmit.from_clear_interval clear_interval)).1, latch,
               WorkerEvent.op (LinkOp.update_schedule batch) none
                 :: (handle_execute_schedule link path
                      (Resubmit.from_clear_interval clear_interval)).2))
      ∧ (link.refresh_schedule_result = Except.ok () →
          link.execute_schedule_result = Except.ok () →
          opsOf (handle_execute_schedule link path
              (Resubmit.from_clear_interval clear_interval)).2
            = [LinkOp.refresh_schedule, LinkOp.execute_schedule,
               LinkOp.process_pending_txs (Resubmit.from_clear_interval clear_interval)]) := by
  refine ⟨?_, ?_, ?_⟩
  · intro e he
    simp only [handle_packet_cmd, handle_update_schedule, he]
  · intro hok
    simp only [handle_packet_cmd, handle_update_schedule, hok]
  · intro hr he
    unfold handle_execute_schedule
    rw [hr, he]
    simp [opsOf, packet_metrics]

/-- A sample event batch used by concrete witnesses. -/
def sampleBatch : EventBatch :=
  { chain_id := "chain-a",
    height := { revision_number := 0, revision_height := 1 },
    events := [] }

/-- Witness for C5: with the all-succeeding link behaviour, the dispatch of
an `IbcEvents` command is `update_schedule` followed by the full executor
pass. -/
theorem ibc_events_dispatch_witness :
    handle_packet_cmd lmAllOk true 0 samplePath (WorkerCmd.IbcEvents sampleBatch)
      = ((handle_execute_schedule lmAllOk samplePath (Resubmit.from_clear_interval 0)).1,
         true,
         WorkerEvent.op (LinkOp.update_schedule sampleBatch) none
           :: (handle_execute_schedule lmAllOk samplePath
                (Resubmit.from_clear_interval 0)).2) :=
  (ibc_events_dispatch lmAllOk true 0 samplePath sampleBatch).2.1 rfl

/-! ## Claim C6 -/

/-- C6: the tick task spawned by `spawn_packet_worker` runs with a 1000 ms
period and each iteration performs, on the exclusively held link,
`refresh_schedule`, then `execute_schedule`, then `process_pending_txs`
with the resubmit policy of the worker, in that order; a failure of an earlier
call prevents the later calls of that iteration. -/
theorem tick_task_order (link : LinkModel) (path : Packet) (r : Resubmit) :
    packet_worker_tick_period_ms = 1000
      ∧ (link.refresh_schedule_result = Except.ok () →
          link.execute_schedule_result = Except.ok () →
          opsOf (spawn_packet_worker_step link path r).2
            = [LinkOp.refresh_schedule, LinkOp.execute_schedule,
               LinkOp.process_pending_txs r])
      ∧ (∀ e, link.refresh_schedule_result = Except.error e →
          opsOf (spawn_packet_worker_step link path r).2 = [LinkOp.refresh_schedule]
            ∧ (spawn_packet_worker_step link path r).1
              = Except.error (handle_link_error_in_task e))
      ∧ (∀ e, link.refresh_schedule_result = Except.ok () →
          link.execute_schedule_result = Except.error e →
          opsOf (spawn_packet_worker_step link path r).2
            = [LinkOp.refresh_schedule, LinkOp.execute_schedule]) := by
  refine ⟨rfl, ?_, ?_, ?_⟩
  · intro hr he
    unfold spawn_packet_worker_step handle_execute_schedule
    rw [hr, he]
    simp [opsOf, packet_metrics]
  · intro e hr
    unfold spawn_packet_worker_step handle_execute_schedule
    rw [hr]
    simp [opsOf]
  · intro e hr he
    unfold spawn_packet_worker_step handle_execute_schedule
    rw [hr, he]
    simp [opsOf]

/-- Witness for C6: the all-succeeding behaviour yields the full pass in
order. -/
theorem tick_task_order_witness :
    opsOf (spawn_packet_worker_step lmAllOk samplePath Resubmit.never).2
      = [LinkOp.refresh_schedule, LinkOp.execute_schedule,
         LinkOp.process_pending_txs Resubmit.never] :=
  (tick_task_order lmAllOk samplePath Resubmit.never).2.1 rfl rfl

/-! ## Claim C3 -/

/-- C3: the command worker does not consume a command until its handler
returns `Ok`: a pending `current_command` is re-dispatched without reading
the inbox, it is retained exactly when `handle_packet_cmd` fails, a new
command is read from the inbox only when `current_command` is empty, and a
step with no pending and no inboxed command does nothing. -/
theorem cmd_intake_at_least_once (link : LinkModel) (clear_interval : Nat) (path : Packet)
    (inbox : List WorkerCmd) (latch : Bool) (cmd : WorkerCmd) :
    ((cmd_worker_step link clear_interval path
        { inbox := inbox, current_command := some cmd,
          should_clear_on_start := latch }).1.inbox = inbox)
      ∧ ((cmd_worker_step link clear_interval path
          { inbox := inbox, current_command := some cmd,
            should_clear_on_start := latch }).2.1
        = (handle_packet_cmd link latch clear_interval path cmd).1)
      ∧ ((cmd_worker_step link clear_interval path
          { inbox := inbox, current_command := some cmd,
            should_clear_on_start := latch }).1.current_command
        = if exceptIsOk (handle_packet_cmd link latch clear_interval path cmd).1 then
            none
          else
            some cmd)
      ∧ ((cmd_worker_step link clear_interval path
          { inbox := cmd :: inbox, current_command := none,
            should_clear_on_start := latch }).1.inbox = inbox)
      ∧ ((cmd_worker_step link clear_interval path
          { inbox := cmd :: inbox, current_command := none,
            should_clear_on_start := latch }).2.1
        = (handle_packet_cmd link latch clear_interval path cmd).1)
      ∧ ((cmd_worker_step link clear_interval path
          { inbox := cmd :: inbox, current_command := none,
            should_clear_on_start := latch }).1.current_command
        = if exceptIsOk (handle_packet_cmd link latch clear_interval path cmd).1 then
            none
          else
            some cmd)
      ∧ (cmd_worker_step link clear_interval path
            { inbox := [], current_command := none, should_clear_on_start := latch }
          = ({ inbox := [], current_command := none, should_clear_on_start := latch },
             Except.ok (), [])) := by
  unfold cmd_worker_step
  cases hres : (handle_packet_cmd link latch clear_interval path cmd).1 with
  | ok u =>
      cases u
      simp [hres, exceptIsOk]
  | error e =>
      simp [hres, exceptIsOk]

/-! ## Claim C1 -/

theorem latch_step_eq (link : LinkModel) (latch : Bool) (clear_interval : Nat)
    (path : Packet) (cmd : WorkerCmd) :
    (handle_packet_cmd link latch clear_interval path cmd).2.1
      = (latch
          && !(cmd.isNewBlock
                && exceptIsOk (handle_packet_cmd link latch clear_interval path cmd).1)) := by
  cases cmd with
  | IbcEvents batch => simp [handle_packet_cmd, WorkerCmd.isNewBlock]
  | ClearPendingPackets => simp [handle_packet_cmd, WorkerCmd.isNewBlock]
  | NewBlock h nb =>
      cases latch with
      | false =>
          by_cases hs : should_clear_packets clear_interval h
          · simp [handle_packet_cmd, hs]
          · simp [handle_packet_cmd, hs]
      | true =>
          simp only [handle_packet_cmd, if_true]
          cases (handle_clear_packet link clear_interval path (some h)).1 with
          | error e => simp [WorkerCmd.isNewBlock, exceptIsOk]
          | ok u => simp [WorkerCmd.isNewBlock, exceptIsOk]

theorem latch_bool_aux (a b1 b2 c : Bool) :
    ((a && !(b1 && b2)) && !c) = (a && !(a && b1 && b2 || c)) := by
  cases a <;> cases b1 <;> cases b2 <;> cases c <;> rfl

theorem run_latch_eq (clear_interval : Nat) (path : Packet)
    (steps : List (LinkModel × WorkerCmd)) (latch : Bool) :
    (run_packet_cmds clear_interval path steps latch).1
      = (latch && !(on_start_clear_succeeded clear_interval path steps latch)) := by
  induction steps generalizing latch with
  | nil => simp [run_packet_cmds, on_start_clear_succeeded]
  | cons step rest ih =>
      obtain ⟨link, cmd⟩ := step
      simp only [run_packet_cmds, on_start_clear_succeeded]
      rw [ih]
      rw [latch_step_eq]
      exact latch_bool_aux latch cmd.isNewBlock
        (exceptIsOk (handle_packet_cmd link latch clear_interval path cmd).1)
        (on_start_clear_succeeded clear_interval path rest
          (latch
            && !(cmd.isNewBlock
                  && exceptIsOk (handle_packet_cmd link latch clear_interval path cmd).1)))

/-- C1 (counterexample): a run starting with the latch set, whose single
command is a `ClearPendingPackets` whose clearing succeeds, ends with at
least one successful clearing having occurred while the latch is still
true — so the latch being false is not equivalent to a successful clearing
having occurred. -/
theorem clear_pending_success_keeps_latch :
    successfulClearingOccurred
        (run_packet_cmds 0 samplePath [(lmAllOk, WorkerCmd.ClearPendingPackets)] true).2 = true
      ∧ (run_packet_cmds 0 samplePath [(lmAllOk, WorkerCmd.ClearPendingPackets)] true).1 = true
      ∧ ¬((run_packet_cmds 0 samplePath
            [(lmAllOk, WorkerCmd.ClearPendingPackets)] true).1 = false
          ↔ successfulClearingOccurred
              (run_packet_cmds 0 samplePath
                [(lmAllOk, WorkerCmd.ClearPendingPackets)] true).2 = true) := by
  decide

/-- C1 (amended): the latch ends false iff it started false or some
`NewBlock` command was dispatched with the latch still set and its handler
(whose on-start branch performs the clearing) returned `Ok`; equivalently,
at each single dispatch the latch becomes false exactly when it already was
false or the command is a `NewBlock` whose handler returned `Ok` — so no
other command, including a `ClearPendingPackets` whose clearing succeeds,
ever changes the latch. -/
theorem latch_false_iff_on_start_clear (clear_interval : Nat) (path : Packet) :
    (∀ (steps : List (LinkModel × WorkerCmd)) (latch : Bool),
        (run_packet_cmds clear_interval path steps latch).1 = false
          ↔ (latch = false
              ∨ on_start_clear_succeeded clear_interval path steps latch = true))
      ∧ ∀ (link : LinkModel) (latch : Bool) (cmd : WorkerCmd),
          ((handle_packet_cmd link latch clear_interval path cmd).2.1 = false
            ↔ (latch = false
                ∨ (cmd.isNewBlock = true
                    ∧ (handle_packet_cmd link latch clear_interval path cmd).1
                      = Except.ok ()))) := by
  constructor
  · intro steps latch
    rw [run_latch_eq]
    cases latch <;> simp
  · intro link latch cmd
    rw [latch_step_eq, ← exceptIsOk_iff]
    cases latch with
    | false => simp
    | true =>
        cases hb : cmd.isNewBlock with
        | false => simp [hb]
        | true =>
            cases ho : exceptIsOk (handle_packet_cmd link true clear_interval path cmd).1 with
            | false => simp [hb, ho]
            | true => simp [hb, ho]

/-! ## Claim C7 -/

/-- C7: in the baseline-delivery scenario under the `ClearPacketTest`
configuration (`clear_on_start = false`, `clear_interval = 0`), a transfer
made before the supervisor starts is never delivered, so the chain-B wallet
ends at exactly the second amount; at the amounts the spec fixes, `A1 = 3000`,
`A2 = 2500` the chain-B balance is 2500 and the chain-A wallet is debited
exactly `A1 + A2 = 5500`. -/
theorem clear_packet_test_balances (c : PacketsModeConfig)
    (balance_a amount1 amount2 : Nat) :
    (baseline_delivery (clearPacketTestOverrides c) balance_a amount1 amount2).2 = amount2
      ∧ baseline_delivery (clearPacketTestOverrides c) balance_a 3000 2500
          = (balance_a - 5500, 2500)
      ∧ (5500 ≤ balance_a →
          balance_a
              - (baseline_delivery (clearPacketTestOverrides c) balance_a 3000 2500).1
            = 5500) := by
  have hsub : balance_a - 3000 - 2500 = balance_a - 5500 := by omega
  refine ⟨?_, ?_, ?_⟩
  · simp [baseline_delivery, clearPacketTestOverrides]
  · simp [baseline_delivery, clearPacketTestOverrides, hsub]
  · intro hb
    have h1 : (baseline_delivery (clearPacketTestOverrides c) balance_a 3000 2500).1
        = balance_a - 3000 - 2500 := rfl
    rw [h1]
    omega

/-- Witness for C7: with a starting balance of 10000, chain A ends debited
by exactly 5500. -/
theorem clear_packet_test_balances_witness :
    10000
        - (baseline_delivery
            (clearPacketTestOverrides
              { enabled := true, clear_on_start := true, clear_interval := 7 })
            10000 3000 2500).1
      = 5500 :=
  (clear_packet_test_balances
    { enabled := true, clear_on_start := true, clear_interval := 7 }
    10000 3000 2500).2.2 (by decide)

end PacketWorker
